import Mathlib

/-!
# SkillSwap — credit-settlement and swap-lifecycle core, shallow embedding

This file embeds the credit-settlement core of the SkillSwap repository:

* the PL/pgSQL stored procedure `handle_swap_completion` (migration
  `supabase/migrations`, "Credit transfer function"), which performs the
  authorization-checked credit transfer finalizing a swap;
* the row-level-security policy `"Users can update their swaps"`
  (`FOR UPDATE USING (auth.uid() = teacher_id OR auth.uid() = learner_id)`),
  which is the only guard the repository places on swap status transitions;
* the trigger function `handle_new_user` (migration `20250926192245`), which
  provisions a profile on first login via
  `INSERT ... ON CONFLICT (id) DO UPDATE`;
* the schema defaults of the `profiles` table
  (`credits INTEGER DEFAULT 100`, counters and rating defaulting to zero)
  and the plain profile insert performed by `signUp` in `useAuth`.

Rows are embedded as structures, tables as lists of rows, SQL `UPDATE` as a
map over the list (an update touches every row matching its `WHERE` clause),
and the trigger/procedure control flow as Lean pattern matches mirroring the
PL/pgSQL line by line.  The `EXCEPTION WHEN OTHERS` sub-block of
`handle_swap_completion` is a PL/pgSQL sub-transaction: an exception raised
inside it rolls the block's own writes back; we model an engine fault during
the mutation block by an oracle argument `fault : Option String` carrying the
would-be `SQLERRM` text.
-/

/-- Column `swaps.status`: CHECK (status IN ('pending', 'accepted', 'in_progress',
'completed', 'declined', 'cancelled')). -/
inductive SwapStatus
  | pending
  | accepted
  | in_progress
  | completed
  | declined
  | cancelled
deriving DecidableEq, Repr

/-- Column `transactions.transaction_type`: CHECK (transaction_type IN
('swap_payment', 'signup_bonus', 'referral_bonus', 'admin_adjustment')). -/
inductive TxnType
  | swap_payment
  | signup_bonus
  | referral_bonus
  | admin_adjustment
deriving DecidableEq, Repr

/-- A row of the `profiles` table (the columns the core reads or writes).
`average_rating` is `DECIMAL(3,2)`, embedded as a rational. -/
structure Profile where
  id : String
  email : String
  full_name : Option String
  avatar_url : Option String
  credits : Int
  skills_taught : Int
  skills_learned : Int
  average_rating : ℚ
  total_reviews : Int
deriving DecidableEq, Repr

/-- A row of the `swaps` table (the columns the core reads or writes). -/
structure Swap where
  id : String
  skill_id : String
  teacher_id : String
  learner_id : String
  status : SwapStatus
  duration_hours : Int
  total_credits : Int
deriving DecidableEq, Repr

/-- A row of the `transactions` table. `from_user_id` and `swap_id` are
nullable columns. -/
structure Txn where
  from_user_id : Option String
  to_user_id : String
  swap_id : Option String
  amount : Int
  transaction_type : TxnType
  description : Option String
deriving DecidableEq, Repr

/-- The database state the core touches: the `profiles`, `swaps` and
`transactions` tables. -/
structure DB where
  profiles : List Profile
  swaps : List Swap
  transactions : List Txn
deriving DecidableEq, Repr

/-- Referential and key integrity guaranteed by the schema:
`profiles.id` is a primary key, `swaps.id` is a primary key, and
`swaps.teacher_id` / `swaps.learner_id` are `NOT NULL REFERENCES profiles(id)`
— so each swap references exactly one existing teacher row and exactly one
existing learner row. -/
def DB.wf (db : DB) : Prop :=
  (db.profiles.map Profile.id).Nodup ∧
  (db.swaps.map Swap.id).Nodup ∧
  ∀ s ∈ db.swaps,
    db.profiles.countP (fun p => p.id == s.teacher_id) = 1 ∧
    db.profiles.countP (fun p => p.id == s.learner_id) = 1

instance (db : DB) : Decidable db.wf := by
  unfold DB.wf
  infer_instance

/-- Outcome of `handle_swap_completion`, keyed by the jsonb the procedure
builds: success, or one of its four guard failures, or the message `SQLERRM`
of an engine exception caught by `EXCEPTION WHEN OTHERS`. -/
inductive SettleResult
  | ok
  | notFound
  | invalidState
  | unauthorized
  | insufficientCredits
  | engineFault (sqlerrm : String)
deriving DecidableEq, Repr

/-- The jsonb object `handle_swap_completion` returns:
`jsonb_build_object('success', ..., 'message'/'error', ...)`. -/
structure RpcResult where
  success : Bool
  message : Option String
  error : Option String
deriving DecidableEq, Repr

/-- The exact jsonb payload built for each outcome, string for string from the
procedure body.  On an engine fault the `error` field is `SQLERRM` itself. -/
def SettleResult.toJson : SettleResult → RpcResult
  | .ok => ⟨true, some "Swap completed successfully", none⟩
  | .notFound => ⟨false, none, some "Swap not found"⟩
  | .invalidState => ⟨false, none, some "Swap is not in progress"⟩
  | .unauthorized => ⟨false, none, some "Unauthorized"⟩
  | .insufficientCredits => ⟨false, none, some "Insufficient credits"⟩
  | .engineFault m => ⟨false, none, some m⟩

/-- The balance guard
`IF (SELECT credits FROM profiles WHERE id = swap_record.learner_id) < swap_record.total_credits`:
the scalar subquery yields the credits of the first matching row, or NULL when
no row matches, and `NULL < x` is not true, so a missing learner row passes
the guard. -/
def learnerLacksCredits (db : DB) (swap_record : Swap) : Bool :=
  match (db.profiles.find? (fun p => p.id == swap_record.learner_id)).map Profile.credits with
  | some c => decide (c < swap_record.total_credits)
  | none => false

/-- The stored procedure `handle_swap_completion(swap_uuid UUID)`, embedded
line by line.  `auth_uid` is `auth.uid()` (the calling user), `fault` is the
oracle for an engine exception raised inside the mutation block (`none` =
the block runs to completion; `some m` = an exception with `SQLERRM = m` is
raised, and the sub-transaction semantics of the `BEGIN ... EXCEPTION` block
roll every write of the block back).

Source order: `SELECT * INTO swap_record` (`NOT FOUND` → Swap not found);
status check; authorization check against teacher and learner; then the inner
block: learner balance check (`SELECT credits` of a missing learner row is
NULL, and `NULL < x` is not true, so the guard passes in that unreachable
case), learner debit, teacher credit + `skills_taught` bump, learner
`skills_learned` bump, swap status update, transaction insert. -/
def handle_swap_completion (auth_uid : String) (swap_uuid : String)
    (fault : Option String) (db : DB) : DB × SettleResult :=
  match db.swaps.find? (fun s => s.id == swap_uuid) with
  | none => (db, .notFound)
  | some swap_record =>
    if swap_record.status ≠ SwapStatus.in_progress then
      (db, .invalidState)
    else if auth_uid ≠ swap_record.teacher_id ∧ auth_uid ≠ swap_record.learner_id then
      (db, .unauthorized)
    else
      if learnerLacksCredits db swap_record then
        (db, .insufficientCredits)
      else
        match fault with
        | some m => (db, .engineFault m)
        | none =>
          let db1 : DB := { db with
            profiles := db.profiles.map (fun p =>
              if p.id == swap_record.learner_id then
                { p with credits := p.credits - swap_record.total_credits }
              else p) }
          let db2 : DB := { db1 with
            profiles := db1.profiles.map (fun p =>
              if p.id == swap_record.teacher_id then
                { p with credits := p.credits + swap_record.total_credits,
                         skills_taught := p.skills_taught + 1 }
              else p) }
          let db3 : DB := { db2 with
            profiles := db2.profiles.map (fun p =>
              if p.id == swap_record.learner_id then
                { p with skills_learned := p.skills_learned + 1 }
              else p) }
          let db4 : DB := { db3 with
            swaps := db3.swaps.map (fun s =>
              if s.id == swap_uuid then { s with status := SwapStatus.completed }
              else s) }
          let db5 : DB := { db4 with
            transactions := db4.transactions ++
              [{ from_user_id := some swap_record.learner_id,
                 to_user_id := swap_record.teacher_id,
                 swap_id := some swap_uuid,
                 amount := swap_record.total_credits,
                 transaction_type := TxnType.swap_payment,
                 description := some "Payment for completed skill swap" }] }
          (db5, .ok)

/-- RLS policy `"Users can update their swaps"`:
`FOR UPDATE USING (auth.uid() = teacher_id OR auth.uid() = learner_id)`.
This is the only guard the repository places on a swap status update. -/
def canUpdateSwap (auth_uid : String) (s : Swap) : Bool :=
  auth_uid == s.teacher_id || auth_uid == s.learner_id

/-- A client-side status transition, as the repository performs it: an
`UPDATE swaps SET status = newStatus WHERE id = swap_id`.  Under row-level
security the `USING` clause filters the rows the statement can see, so a row
failing the policy is simply not updated (zero rows affected, no error). -/
def updateSwapStatus (auth_uid : String) (swap_id : String)
    (newStatus : SwapStatus) (db : DB) : DB :=
  { db with
    swaps := db.swaps.map (fun s =>
      if s.id == swap_id && canUpdateSwap auth_uid s then
        { s with status := newStatus }
      else s) }

/-- An `auth.users` row as seen by the `handle_new_user` trigger: the new
identity's id and email, and the OAuth `raw_user_meta_data` keys the trigger
reads (`->> 'full_name'`, `->> 'name'`, `->> 'avatar_url'`). -/
structure NewUser where
  id : String
  email : String
  meta_full_name : Option String
  meta_name : Option String
  meta_avatar_url : Option String
deriving DecidableEq, Repr

/-- SQL `split_part(email, '@', 1)`: the part of the address before the first
`@` (the whole string when there is none). -/
def emailLocalPart (email : String) : String :=
  (email.splitOn "@").headD email

/-- The `full_name` value the trigger inserts:
`COALESCE(meta->>'full_name', meta->>'name', split_part(email,'@',1))`.
The third argument is never NULL, so the result is never NULL. -/
def provisionedFullName (u : NewUser) : String :=
  match u.meta_full_name with
  | some n => n
  | none =>
    match u.meta_name with
    | some n => n
    | none => emailLocalPart u.email

/-- SQL `COALESCE` on two nullable text values: the first one when it is
non-NULL, otherwise the second. -/
def sqlCoalesce (a b : Option String) : Option String :=
  match a with
  | some x => some x
  | none => b

/-- A fresh `profiles` row holding the explicitly inserted columns together
with the schema defaults: `credits INTEGER DEFAULT 100`,
`skills_taught INTEGER DEFAULT 0`, `skills_learned INTEGER DEFAULT 0`,
`average_rating DECIMAL(3,2) DEFAULT 0.0`, `total_reviews INTEGER DEFAULT 0`. -/
def defaultProfileRow (id email : String) (full_name avatar_url : Option String) :
    Profile :=
  { id := id, email := email, full_name := full_name, avatar_url := avatar_url,
    credits := 100, skills_taught := 0, skills_learned := 0,
    average_rating := 0, total_reviews := 0 }

/-- The trigger function `handle_new_user()`, fired after each insert into
`auth.users`:

`INSERT INTO public.profiles (id, email, full_name, avatar_url) VALUES (...)`
`ON CONFLICT (id) DO UPDATE SET`
`  full_name = COALESCE(EXCLUDED.full_name, profiles.full_name),`
`  avatar_url = COALESCE(EXCLUDED.avatar_url, profiles.avatar_url),`
`  updated_at = now();`

`EXCLUDED` is the row that was proposed for insertion, so on conflict the
incoming value wins whenever it is non-NULL (and the inserted `full_name` is
never NULL).  Columns the statement does not mention keep their existing
values on conflict, and take their schema defaults on a fresh insert. -/
def handle_new_user (u : NewUser) (db : DB) : DB :=
  if db.profiles.any (fun p => p.id == u.id) then
    { db with
      profiles := db.profiles.map (fun p =>
        if p.id == u.id then
          { p with
            full_name := sqlCoalesce (some (provisionedFullName u)) p.full_name,
            avatar_url := sqlCoalesce u.meta_avatar_url p.avatar_url }
        else p) }
  else
    { db with
      profiles := db.profiles ++
        [defaultProfileRow u.id u.email (some (provisionedFullName u)) u.meta_avatar_url] }

/-- The profile insert performed by `signUp` in `useAuth`:
`supabase.from('profiles').insert({ id, email, full_name })` — a plain
insert with no conflict clause.  A duplicate id violates the primary key and
the insert is rejected; otherwise the unspecified columns take their schema
defaults (`avatar_url` NULL, `credits` 100, counters 0). -/
def signUpProfileInsert (id email fullName : String) (db : DB) :
    DB × Bool :=
  if db.profiles.any (fun p => p.id == id) then
    (db, false)
  else
    ({ db with
       profiles := db.profiles ++ [defaultProfileRow id email (some fullName) none] },
     true)

/-- Total credits held across all profile rows. -/
def creditSum (db : DB) : Int :=
  (db.profiles.map Profile.credits).sum

/-- Run a sequence of `handle_swap_completion` calls: each list entry is
(caller uid, swap uuid, fault oracle). -/
def runSettleCalls (calls : List (String × String × Option String)) (db : DB) : DB :=
  calls.foldl (fun d c => (handle_swap_completion c.1 c.2.1 c.2.2 d).1) db

/-! ## Concrete rows used by witnesses and counterexamples -/

/-- Teacher profile with balance 50 (spec scenario, §8). -/
def exTeacher : Profile :=
  { id := "t1", email := "teacher@example.com", full_name := some "Teacher", avatar_url := none,
    credits := 50, skills_taught := 2, skills_learned := 3,
    average_rating := 0, total_reviews := 0 }

/-- Learner profile with balance 20 (spec scenario, §8). -/
def exLearner : Profile :=
  { id := "l1", email := "learner@example.com", full_name := some "Learner", avatar_url := none,
    credits := 20, skills_taught := 0, skills_learned := 1,
    average_rating := 0, total_reviews := 0 }

/-- An `in_progress` swap worth 10 credits between `exTeacher` and
`exLearner`. -/
def exSwap : Swap :=
  { id := "s1", skill_id := "k1", teacher_id := "t1", learner_id := "l1",
    status := SwapStatus.in_progress, duration_hours := 1, total_credits := 10 }

/-- Database for the success scenario: balances 50 / 20, one `in_progress`
swap for 10 credits, empty ledger. -/
def exDB : DB := { profiles := [exTeacher, exLearner], swaps := [exSwap], transactions := [] }

/-- Same learner but with balance 3 (spec failure scenario, §8). -/
def exLearnerPoor : Profile := { exLearner with credits := 3 }

/-- Database for the insufficient-credits scenario: learner balance 3 against
`total_credits` 10. -/
def exDBPoor : DB :=
  { profiles := [exTeacher, exLearnerPoor], swaps := [exSwap], transactions := [] }

/-- A `pending` swap between the same parties. -/
def exSwapPending : Swap := { exSwap with status := SwapStatus.pending }

/-- Database with a `pending` swap, for the respond scenarios. -/
def exDBPending : DB :=
  { profiles := [exTeacher, exLearner], swaps := [exSwapPending], transactions := [] }

/-- An identity whose id collides with the existing learner profile and whose
OAuth metadata carries a different full name. -/
def exNewUser : NewUser :=
  { id := "l1", email := "learner@example.com", meta_full_name := some "Bob",
    meta_name := none, meta_avatar_url := none }

/-- A brand-new identity with a metadata name and no avatar. -/
def exNewUser2 : NewUser :=
  { id := "u7", email := "nora@example.org", meta_full_name := none,
    meta_name := some "Nora", meta_avatar_url := none }

/-! ## Branch characterization of `handle_swap_completion` -/

/-- Guard 1: no swap row matches `swap_uuid` — the call returns
"Swap not found" and the database is untouched. -/
theorem settle_eq_notFound (uid sid : String) (fault : Option String) (db : DB)
    (hf : db.swaps.find? (fun x => x.id == sid) = none) :
    handle_swap_completion uid sid fault db = (db, SettleResult.notFound) := by
  unfold handle_swap_completion
  rw [hf]

/-- Guard 2: the swap is not `in_progress` — the call returns
"Swap is not in progress" and the database is untouched, whatever the caller
and balances are. -/
theorem settle_eq_invalidState (uid sid : String) (fault : Option String) (db : DB)
    (s : Swap) (hf : db.swaps.find? (fun x => x.id == sid) = some s)
    (hs : s.status ≠ SwapStatus.in_progress) :
    handle_swap_completion uid sid fault db = (db, SettleResult.invalidState) := by
  unfold handle_swap_completion
  rw [hf]
  simp only [if_pos hs]

/-- Guard 3: the swap is `in_progress` but the caller is neither the teacher
nor the learner — the call returns "Unauthorized" and the database is
untouched, whatever the balances are. -/
theorem settle_eq_unauthorized (uid sid : String) (fault : Option String) (db : DB)
    (s : Swap) (hf : db.swaps.find? (fun x => x.id == sid) = some s)
    (hs : s.status = SwapStatus.in_progress)
    (ht : uid ≠ s.teacher_id) (hl : uid ≠ s.learner_id) :
    handle_swap_completion uid sid fault db = (db, SettleResult.unauthorized) := by
  unfold handle_swap_completion
  rw [hf]
  simp [hs, ht, hl]

/-- Guard 4: all earlier guards pass but the learner's balance is below
`total_credits` — the call returns "Insufficient credits" and the database is
untouched. -/
theorem settle_eq_insufficient (uid sid : String) (fault : Option String) (db : DB)
    (s : Swap) (hf : db.swaps.find? (fun x => x.id == sid) = some s)
    (hs : s.status = SwapStatus.in_progress)
    (ha : uid = s.teacher_id ∨ uid = s.learner_id)
    (hc : learnerLacksCredits db s = true) :
    handle_swap_completion uid sid fault db = (db, SettleResult.insufficientCredits) := by
  unfold handle_swap_completion
  rw [hf]
  have ha' : ¬ (uid ≠ s.teacher_id ∧ uid ≠ s.learner_id) := by tauto
  simp [hs, ha', hc]

/-- All four guards pass but an engine exception is raised inside the
mutation block: the `BEGIN ... EXCEPTION` sub-transaction rolls the block
back and the call reports `SQLERRM`; the database is untouched. -/
theorem settle_eq_fault (uid sid : String) (m : String) (db : DB)
    (s : Swap) (hf : db.swaps.find? (fun x => x.id == sid) = some s)
    (hs : s.status = SwapStatus.in_progress)
    (ha : uid = s.teacher_id ∨ uid = s.learner_id)
    (hc : learnerLacksCredits db s = false) :
    handle_swap_completion uid sid (some m) db = (db, SettleResult.engineFault m) := by
  unfold handle_swap_completion
  rw [hf]
  have ha' : ¬ (uid ≠ s.teacher_id ∧ uid ≠ s.learner_id) := by tauto
  simp [hs, ha', hc]

/-- All four guards pass and the mutation block runs to completion: the call
succeeds, performing the learner debit, the teacher credit and
`skills_taught` bump, the learner `skills_learned` bump, the status change,
and the ledger insert — in the procedure's statement order. -/
theorem settle_eq_ok (uid sid : String) (db : DB)
    (s : Swap) (hf : db.swaps.find? (fun x => x.id == sid) = some s)
    (hs : s.status = SwapStatus.in_progress)
    (ha : uid = s.teacher_id ∨ uid = s.learner_id)
    (hc : learnerLacksCredits db s = false) :
    handle_swap_completion uid sid none db =
      ({ profiles :=
           ((db.profiles.map (fun p =>
               if p.id == s.learner_id then
                 { p with credits := p.credits - s.total_credits }
               else p)).map (fun p =>
               if p.id == s.teacher_id then
                 { p with credits := p.credits + s.total_credits,
                          skills_taught := p.skills_taught + 1 }
               else p)).map (fun p =>
               if p.id == s.learner_id then
                 { p with skills_learned := p.skills_learned + 1 }
               else p),
         swaps := db.swaps.map (fun x =>
           if x.id == sid then { x with status := SwapStatus.completed } else x),
         transactions := db.transactions ++
           [{ from_user_id := some s.learner_id,
              to_user_id := s.teacher_id,
              swap_id := some sid,
              amount := s.total_credits,
              transaction_type := TxnType.swap_payment,
              description := some "Payment for completed skill swap" }] },
       SettleResult.ok) := by
  unfold handle_swap_completion
  rw [hf]
  have ha' : ¬ (uid ≠ s.teacher_id ∧ uid ≠ s.learner_id) := by tauto
  simp [hs, ha', hc]

/-- Every non-`ok` outcome of the procedure leaves the database exactly as it
was: the four guards fire before any write, and an engine exception inside
the mutation block is undone by the sub-transaction rollback. -/
theorem settle_cases (uid sid : String) (fault : Option String) (db : DB) :
    (handle_swap_completion uid sid fault db).1 = db ∨
      (handle_swap_completion uid sid fault db).2 = SettleResult.ok := by
  unfold handle_swap_completion
  repeat' split
  all_goals first | (left; rfl) | (right; rfl)

/-- Inversion: a successful call means every guard passed and no fault was
raised. -/
theorem settle_ok_shape (uid sid : String) (fault : Option String) (db : DB)
    (h : (handle_swap_completion uid sid fault db).2 = SettleResult.ok) :
    ∃ s, db.swaps.find? (fun x => x.id == sid) = some s ∧
      s.status = SwapStatus.in_progress ∧
      (uid = s.teacher_id ∨ uid = s.learner_id) ∧
      learnerLacksCredits db s = false ∧ fault = none := by
  cases hf : db.swaps.find? (fun x => x.id == sid) with
  | none =>
    rw [settle_eq_notFound uid sid fault db hf] at h
    simp at h
  | some s =>
    by_cases hs : s.status = SwapStatus.in_progress
    · by_cases ha : uid = s.teacher_id ∨ uid = s.learner_id
      · by_cases hc : learnerLacksCredits db s = true
        · rw [settle_eq_insufficient uid sid fault db s hf hs ha hc] at h
          simp at h
        · have hc' : learnerLacksCredits db s = false := by
            simpa using hc
          cases fault with
          | some m =>
            rw [settle_eq_fault uid sid m db s hf hs ha hc'] at h
            simp at h
          | none => exact ⟨s, rfl, hs, ha, hc', rfl⟩
      · push_neg at ha
        rw [settle_eq_unauthorized uid sid fault db s hf hs ha.1 ha.2] at h
        simp at h
    · rw [settle_eq_invalidState uid sid fault db s hf hs] at h
      simp at h

/-! ## Helper lemmas about list tables -/

/-- Mapping rows by `F` and then projecting by a field `F` preserves gives
the same projection as on the original table. -/
theorem map_map_proj {α β : Type} (l : List α) (F : α → α) (g : α → β)
    (hF : ∀ a, g (F a) = g a) : (l.map F).map g = l.map g := by
  induction l with
  | nil => rfl
  | cons a t ih => simp [hF, ih]

/-- Lookup commutes with row maps: `find?` commutes with a row map whose predicate it cannot distinguish:
mapping each row by `F` where `F` preserves the predicate moves `find?`
inside the map. -/
theorem find?_map_pred_inv {α : Type} (p : α → Bool) (F : α → α)
    (hF : ∀ a, p (F a) = p a) (l : List α) :
    (l.map F).find? p = (l.find? p).map F := by
  induction l with
  | nil => rfl
  | cons a t ih =>
    by_cases h : p a = true
    · simp [List.find?_cons, hF, h]
    · simp only [Bool.not_eq_true] at h
      simp [List.find?_cons, hF, h, ih]

/-- Counting is unchanged by row maps: `countP` is unchanged by a row map whose predicate it cannot
distinguish. -/
theorem countP_map_pred {α : Type} (p : α → Bool) (F : α → α)
    (hF : ∀ a, p (F a) = p a) (l : List α) :
    (l.map F).countP p = l.countP p := by
  induction l with
  | nil => rfl
  | cons a t ih => simp [List.countP_cons, hF, ih]

/-- A map that fixes every member of a list is the identity on it. -/
theorem map_eq_self_of_mem {α : Type} (l : List α) (F : α → α)
    (h : ∀ a ∈ l, F a = a) : l.map F = l := by
  induction l with
  | nil => rfl
  | cons a t ih =>
    simp only [List.map_cons, h a (by simp)]
    rw [ih (fun b hb => h b (by simp [hb]))]

/-- The three profile updates and the swap update of the mutation block all
preserve row ids, so key and referential integrity survive a settlement. -/
theorem settle_preserves_wf (uid sid : String) (fault : Option String) (db : DB)
    (hwf : db.wf) : ((handle_swap_completion uid sid fault db).1).wf := by
  by_cases h : (handle_swap_completion uid sid fault db).2 = SettleResult.ok
  · obtain ⟨s, hf, hs, ha, hc, hfn⟩ := settle_ok_shape uid sid fault db h
    subst hfn
    rw [settle_eq_ok uid sid db s hf hs ha hc]
    obtain ⟨hnp, hns, hfk⟩ := hwf
    have hid1 : ∀ p : Profile,
        (if p.id == s.learner_id then
           { p with credits := p.credits - s.total_credits } else p).id = p.id := by
      intro p
      by_cases hp : (p.id == s.learner_id) = true <;> simp [hp]
    have hid2 : ∀ p : Profile,
        (if p.id == s.teacher_id then
           { p with credits := p.credits + s.total_credits,
                    skills_taught := p.skills_taught + 1 } else p).id = p.id := by
      intro p
      by_cases hp : (p.id == s.teacher_id) = true <;> simp [hp]
    have hid3 : ∀ p : Profile,
        (if p.id == s.learner_id then
           { p with skills_learned := p.skills_learned + 1 } else p).id = p.id := by
      intro p
      by_cases hp : (p.id == s.learner_id) = true <;> simp [hp]
    have hid4 : ∀ x : Swap,
        (if x.id == sid then { x with status := SwapStatus.completed } else x).id = x.id := by
      intro x
      by_cases hx : (x.id == sid) = true <;> simp [hx]
    refine ⟨?_, ?_, ?_⟩
    · rw [map_map_proj _ _ Profile.id hid3, map_map_proj _ _ Profile.id hid2,
        map_map_proj _ _ Profile.id hid1]
      exact hnp
    · rw [map_map_proj _ _ Swap.id hid4]
      exact hns
    · intro x hx
      obtain ⟨y, hy, rfl⟩ := List.mem_map.mp hx
      have hyt : (if y.id == sid then { y with status := SwapStatus.completed } else y).teacher_id
          = y.teacher_id := by
        by_cases hys : (y.id == sid) = true <;> simp [hys]
      have hyl : (if y.id == sid then { y with status := SwapStatus.completed } else y).learner_id
          = y.learner_id := by
        by_cases hys : (y.id == sid) = true <;> simp [hys]
      rw [hyt, hyl]
      obtain ⟨hct, hcl⟩ := hfk y hy
      constructor
      · rw [countP_map_pred _ _ (fun p => by rw [hid3 p]),
          countP_map_pred _ _ (fun p => by rw [hid2 p]),
          countP_map_pred _ _ (fun p => by rw [hid1 p])]
        exact hct
      · rw [countP_map_pred _ _ (fun p => by rw [hid3 p]),
          countP_map_pred _ _ (fun p => by rw [hid2 p]),
          countP_map_pred _ _ (fun p => by rw [hid1 p])]
        exact hcl
  · rcases settle_cases uid sid fault db with h1 | h1
    · rw [h1]
      exact hwf
    · exact absurd h1 h

/-- Summing `credits` over an SQL `UPDATE ... WHERE id = pid` that shifts the
credits of each matching row by `d`: when exactly one row matches, the total
shifts by exactly `d`. -/
theorem sum_credits_map_update (l : List Profile) (pid : String)
    (g : Profile → Profile) (d : Int)
    (hg : ∀ q, (g q).credits = q.credits + d)
    (hc : l.countP (fun q => q.id == pid) = 1) :
    ((l.map (fun q => if q.id == pid then g q else q)).map Profile.credits).sum
      = (l.map Profile.credits).sum + d := by
  induction l with
  | nil => simp at hc
  | cons a t ih =>
    by_cases h : (a.id == pid) = true
    · rw [List.countP_cons_of_pos (fun q => q.id == pid) t h] at hc
      have h0 : t.countP (fun q => q.id == pid) = 0 := by omega
      have hfix : t.map (fun q => if q.id == pid then g q else q) = t := by
        apply map_eq_self_of_mem
        intro q hq
        have : ¬ ((q.id == pid) = true) := by
          have := List.countP_eq_zero.mp h0 q hq
          simpa using this
        simp [this]
      simp only [List.map_cons, if_pos h, hfix, List.map_cons, List.sum_cons, hg]
      omega
    · rw [List.countP_cons_of_neg (fun q => q.id == pid) t h] at hc
      simp only [List.map_cons, if_neg h, List.map_cons, List.sum_cons, ih hc]
      omega

/-- One call to the settlement procedure never changes the total number of
credits in the `profiles` table: the learner row loses exactly what the
teacher row gains, and every failing call leaves the table untouched. -/
theorem settle_preserves_creditSum (uid sid : String) (fault : Option String)
    (db : DB) (hwf : db.wf) :
    creditSum (handle_swap_completion uid sid fault db).1 = creditSum db := by
  by_cases h : (handle_swap_completion uid sid fault db).2 = SettleResult.ok
  · obtain ⟨s, hf, hs, ha, hc, hfn⟩ := settle_ok_shape uid sid fault db h
    subst hfn
    rw [settle_eq_ok uid sid db s hf hs ha hc]
    obtain ⟨hnp, hns, hfk⟩ := hwf
    obtain ⟨hct, hcl⟩ := hfk s (List.mem_of_find?_eq_some hf)
    have hid1 : ∀ p : Profile,
        ((if p.id == s.learner_id then
            { p with credits := p.credits - s.total_credits } else p).id == s.teacher_id)
          = (p.id == s.teacher_id) := by
      intro p
      by_cases hp : (p.id == s.learner_id) = true <;> simp [hp]
    have hid12 : ∀ p : Profile,
        ((if p.id == s.learner_id then
            { p with credits := p.credits - s.total_credits } else p).id == s.learner_id)
          = (p.id == s.learner_id) := by
      intro p
      by_cases hp : (p.id == s.learner_id) = true <;> simp [hp]
    have hid2 : ∀ p : Profile,
        ((if p.id == s.teacher_id then
            { p with credits := p.credits + s.total_credits,
                     skills_taught := p.skills_taught + 1 } else p).id == s.learner_id)
          = (p.id == s.learner_id) := by
      intro p
      by_cases hp : (p.id == s.teacher_id) = true <;> simp [hp]
    unfold creditSum
    rw [sum_credits_map_update _ s.learner_id _ 0 (by intro q; simp)
        (by rw [countP_map_pred _ _ hid2, countP_map_pred _ _ hid12]; exact hcl)]
    rw [sum_credits_map_update _ s.teacher_id _ s.total_credits (by intro q; simp)
        (by rw [countP_map_pred _ _ hid1]; exact hct)]
    rw [sum_credits_map_update _ s.learner_id _ (-(s.total_credits)) ?hg hcl]
    · omega
    · intro q
      simp
      omega
  · rcases settle_cases uid sid fault db with h1 | h1
    · rw [h1]
    · exact absurd h1 h

/-! ## Claim theorems -/

/-- C1: for every swap in state `in_progress` with teacher t, learner l and
total credits c, when `handle_swap_completion` is invoked by t or l and l's
balance is at least c, the call succeeds and the post-state is exactly: l's
balance decreased by c and `skills_learned` incremented, t's balance
increased by c and `skills_taught` incremented, the swap `completed`, and
exactly one new Transaction row (from=l, to=t, swap=s, amount=c,
kind=`swap_payment`); no other record is modified. -/
theorem settle_success_exact (uid sid : String) (db : DB) (s : Swap) (pl : Profile)
    (hf : db.swaps.find? (fun x => x.id == sid) = some s)
    (hs : s.status = SwapStatus.in_progress)
    (ha : uid = s.teacher_id ∨ uid = s.learner_id)
    (hne : s.teacher_id ≠ s.learner_id)
    (hpl : db.profiles.find? (fun p => p.id == s.learner_id) = some pl)
    (hcred : s.total_credits ≤ pl.credits) :
    handle_swap_completion uid sid none db =
      ({ profiles := db.profiles.map (fun p =>
           if p.id == s.learner_id then
             { p with credits := p.credits - s.total_credits,
                      skills_learned := p.skills_learned + 1 }
           else if p.id == s.teacher_id then
             { p with credits := p.credits + s.total_credits,
                      skills_taught := p.skills_taught + 1 }
           else p),
         swaps := db.swaps.map (fun x =>
           if x.id == sid then { x with status := SwapStatus.completed } else x),
         transactions := db.transactions ++
           [{ from_user_id := some s.learner_id,
              to_user_id := s.teacher_id,
              swap_id := some sid,
              amount := s.total_credits,
              transaction_type := TxnType.swap_payment,
              description := some "Payment for completed skill swap" }] },
       SettleResult.ok) := by
  have hc : learnerLacksCredits db s = false := by
    unfold learnerLacksCredits
    rw [hpl]
    simp [not_lt.mpr hcred]
  rw [settle_eq_ok uid sid db s hf hs ha hc]
  simp only [Prod.mk.injEq, DB.mk.injEq, and_true, true_and]
  rw [List.map_map, List.map_map]
  apply List.map_congr_left
  intro p _
  by_cases h1 : (p.id == s.learner_id) = true
  · have hpe : p.id = s.learner_id := by simpa using h1
    have h2 : (p.id == s.teacher_id) = false := by
      simp [hpe]
      exact fun hcntr => hne hcntr.symm
    simp [Function.comp, h1, h2]
  · by_cases h2 : (p.id == s.teacher_id) = true
    · simp [Function.comp, h1, h2]
    · simp [Function.comp, h1, h2]

/-- Witness for C1: the spec scenario — total 10, teacher balance 50 → 60,
learner balance 20 → 10, counters bumped, swap completed, exactly one
`swap_payment` ledger row. -/
theorem settle_success_exact_witness :
    handle_swap_completion "t1" "s1" none exDB =
      ({ profiles := [{ exTeacher with credits := 60, skills_taught := 3 },
                      { exLearner with credits := 10, skills_learned := 2 }],
         swaps := [{ exSwap with status := SwapStatus.completed }],
         transactions := [{ from_user_id := some "l1", to_user_id := "t1",
                            swap_id := some "s1", amount := 10,
                            transaction_type := TxnType.swap_payment,
                            description := some "Payment for completed skill swap" }] },
       SettleResult.ok) := by
  have h := settle_success_exact "t1" "s1" exDB exSwap exLearner (by decide)
    (by decide) (by decide) (by decide) (by decide) (by decide)
  exact h.trans (by decide)

/-- C2: the four preconditions are checked in a fixed order, first failure
wins — missing swap → not found; not `in_progress` → invalid state (whoever
calls); wrong actor → unauthorized (whatever the balances); low balance →
insufficient credits — and a second call after a success finds the swap
`completed`, fails with the invalid-state error, changes nothing, while the
first call appended exactly one ledger row. -/
theorem settle_guard_order (uid sid : String) (fault : Option String) (db : DB) :
    (db.swaps.find? (fun x => x.id == sid) = none →
      handle_swap_completion uid sid fault db = (db, SettleResult.notFound)) ∧
    (∀ s, db.swaps.find? (fun x => x.id == sid) = some s →
      s.status ≠ SwapStatus.in_progress →
      handle_swap_completion uid sid fault db = (db, SettleResult.invalidState)) ∧
    (∀ s, db.swaps.find? (fun x => x.id == sid) = some s →
      s.status = SwapStatus.in_progress →
      uid ≠ s.teacher_id → uid ≠ s.learner_id →
      handle_swap_completion uid sid fault db = (db, SettleResult.unauthorized)) ∧
    (∀ s pl, db.swaps.find? (fun x => x.id == sid) = some s →
      s.status = SwapStatus.in_progress →
      (uid = s.teacher_id ∨ uid = s.learner_id) →
      db.profiles.find? (fun p => p.id == s.learner_id) = some pl →
      pl.credits < s.total_credits →
      handle_swap_completion uid sid fault db = (db, SettleResult.insufficientCredits)) ∧
    ((handle_swap_completion uid sid fault db).2 = SettleResult.ok →
      ∀ uid2 fault2,
        handle_swap_completion uid2 sid fault2 (handle_swap_completion uid sid fault db).1
          = ((handle_swap_completion uid sid fault db).1, SettleResult.invalidState) ∧
        (handle_swap_completion uid sid fault db).1.transactions.length
          = db.transactions.length + 1) := by
  refine ⟨settle_eq_notFound uid sid fault db,
    fun s hf hs => settle_eq_invalidState uid sid fault db s hf hs,
    fun s hf hs ht hl => settle_eq_unauthorized uid sid fault db s hf hs ht hl,
    fun s pl hf hs ha hpl hlt => ?_, fun hok uid2 fault2 => ?_⟩
  · apply settle_eq_insufficient uid sid fault db s hf hs ha
    unfold learnerLacksCredits
    rw [hpl]
    simpa using hlt
  · obtain ⟨s, hf, hs, ha, hc, hfn⟩ := settle_ok_shape uid sid fault db hok
    subst hfn
    rw [settle_eq_ok uid sid db s hf hs ha hc]
    have hFpred : ∀ x : Swap,
        ((if x.id == sid then { x with status := SwapStatus.completed } else x).id == sid)
          = (x.id == sid) := by
      intro x
      by_cases hx : (x.id == sid) = true <;> simp [hx]
    have hfind2 : (db.swaps.map (fun x =>
        if x.id == sid then { x with status := SwapStatus.completed } else x)).find?
          (fun x => x.id == sid) = some { s with status := SwapStatus.completed } := by
      have hsid : s.id = sid := by simpa using List.find?_some hf
      rw [find?_map_pred_inv (fun x => x.id == sid) _ hFpred db.swaps, hf]
      simp [hsid]
    constructor
    · exact settle_eq_invalidState uid2 sid fault2 _ _ hfind2 (by simp)
    · simp

/-- Witness for C2: each guard at a concrete database, and the double-call
scenario — the second call on the settled database fails with the
invalid-state error. -/
theorem settle_guard_order_witness :
    handle_swap_completion "t1" "zz" none exDB = (exDB, SettleResult.notFound) ∧
    handle_swap_completion "t1" "s1" none exDBPending
      = (exDBPending, SettleResult.invalidState) ∧
    handle_swap_completion "x9" "s1" none exDB = (exDB, SettleResult.unauthorized) ∧
    handle_swap_completion "t1" "s1" none exDBPoor
      = (exDBPoor, SettleResult.insufficientCredits) ∧
    handle_swap_completion "l1" "s1" none ((handle_swap_completion "t1" "s1" none exDB).1)
      = ((handle_swap_completion "t1" "s1" none exDB).1, SettleResult.invalidState) ∧
    (handle_swap_completion "t1" "s1" none exDB).1.transactions.length
      = exDB.transactions.length + 1 := by
  have h5 := (settle_guard_order "t1" "s1" none exDB).2.2.2.2 (by decide) "l1" none
  exact ⟨(settle_guard_order "t1" "zz" none exDB).1 (by decide),
    (settle_guard_order "t1" "s1" none exDBPending).2.1 exSwapPending (by decide) (by decide),
    (settle_guard_order "x9" "s1" none exDB).2.2.1 exSwap (by decide) (by decide)
      (by decide) (by decide),
    (settle_guard_order "t1" "s1" none exDBPoor).2.2.2.1 exSwap exLearnerPoor (by decide)
      (by decide) (by decide) (by decide) (by decide),
    h5.1, h5.2⟩

/-- C3: whenever `handle_swap_completion` fails — any of the four guard
failures or an engine fault inside the mutation block — the database is
returned exactly as it was: swap still `in_progress`, balances, counters and
ledger untouched. -/
theorem settle_failure_rollback (uid sid : String) (fault : Option String) (db : DB)
    (h : (handle_swap_completion uid sid fault db).2 ≠ SettleResult.ok) :
    (handle_swap_completion uid sid fault db).1 = db := by
  rcases settle_cases uid sid fault db with h1 | h1
  · exact h1
  · exact absurd h1 h

/-- Witness for C3: the spec failure scenario (learner balance 3 against
total 10) fails with the insufficient-credits error and leaves the database
untouched, and so does an engine fault raised after all guards pass. -/
theorem settle_failure_rollback_witness :
    (handle_swap_completion "t1" "s1" none exDBPoor).2 = SettleResult.insufficientCredits ∧
    (handle_swap_completion "t1" "s1" none exDBPoor).1 = exDBPoor ∧
    (handle_swap_completion "t1" "s1" (some "deadlock detected") exDB).1 = exDB :=
  ⟨by decide, settle_failure_rollback "t1" "s1" none exDBPoor (by decide),
    settle_failure_rollback "t1" "s1" (some "deadlock detected") exDB (by decide)⟩

/-- C4: conservation of credits — any sequence of `handle_swap_completion`
calls (successful or not) leaves the sum of all profile balances unchanged:
each settlement debits the learner and credits the teacher by the same
amount. -/
theorem settlement_conserves_credits (calls : List (String × String × Option String))
    (db : DB) (hwf : db.wf) :
    creditSum (runSettleCalls calls db) = creditSum db := by
  induction calls generalizing db with
  | nil => rfl
  | cons c rest ih =>
    have h1 := settle_preserves_creditSum c.1 c.2.1 c.2.2 db hwf
    have h2 := settle_preserves_wf c.1 c.2.1 c.2.2 db hwf
    unfold runSettleCalls at ih ⊢
    rw [List.foldl_cons]
    rw [ih _ h2, h1]

/-- Witness for C4: two settlement calls on the scenario database (the first
succeeds, the second fails) leave the 70 total credits unchanged. -/
theorem settlement_conserves_credits_witness :
    exDB.wf ∧
    creditSum (runSettleCalls [("t1", "s1", none), ("l1", "s1", none)] exDB)
      = creditSum exDB :=
  ⟨by decide, settlement_conserves_credits [("t1", "s1", none), ("l1", "s1", none)] exDB
    (by decide)⟩

/-- The update policy filters by party membership only: a status update by an
actor who is neither the teacher nor the learner of any swap carrying the id
touches no row at all. -/
theorem updateSwap_nonparty_noop (db : DB) (auth sid : String) (st : SwapStatus)
    (h : ∀ x ∈ db.swaps, x.id = sid → auth ≠ x.teacher_id ∧ auth ≠ x.learner_id) :
    updateSwapStatus auth sid st db = db := by
  unfold updateSwapStatus
  rw [map_eq_self_of_mem]
  intro x hx
  by_cases hid : (x.id == sid) = true
  · have hxid : x.id = sid := by simpa using hid
    obtain ⟨ht, hl⟩ := h x hx hxid
    have : canUpdateSwap auth x = false := by
      unfold canUpdateSwap
      simp [ht, hl]
    simp [this]
  · simp [hid]

/-- What a status update leaves at the id it targets: the policy decides —
for the teacher or the learner the new status is applied whatever the
current state; for anyone else the row is untouched. -/
theorem updateSwap_find? (db : DB) (auth sid : String) (st : SwapStatus) (s : Swap)
    (hf : db.swaps.find? (fun x => x.id == sid) = some s) :
    (updateSwapStatus auth sid st db).swaps.find? (fun x => x.id == sid)
      = some (if canUpdateSwap auth s then { s with status := st } else s) := by
  have hsid : s.id = sid := by simpa using List.find?_some hf
  have hFpred : ∀ x : Swap,
      ((if x.id == sid && canUpdateSwap auth x then { x with status := st } else x).id == sid)
        = (x.id == sid) := by
    intro x
    by_cases hx : (x.id == sid) = true
    · by_cases hc : canUpdateSwap auth x = true
      · simp [hx, hc]
      · simp [hx, hc]
    · simp [hx]
  show (db.swaps.map (fun x =>
      if x.id == sid && canUpdateSwap auth x then { x with status := st } else x)).find?
      (fun x => x.id == sid) = _
  rw [find?_map_pred_inv (fun x => x.id == sid) _ hFpred db.swaps, hf]
  by_cases hcan : canUpdateSwap auth s = true <;> simp [hsid, hcan]

/-- C5 (amended): the repository enforces no transition-legality table; the
only guard on a swap status update is the party check of the policy
`"Users can update their swaps"`.  The teacher or the learner can set any
status from any state — cancelling an `in_progress` swap included — while an
update by anyone else silently touches no row (there is no
InvalidTransitionError in the code). -/
theorem transition_policy_only (db : DB) (auth sid : String) (st : SwapStatus) (s : Swap)
    (hf : db.swaps.find? (fun x => x.id == sid) = some s) :
    (updateSwapStatus auth sid st db).swaps.find? (fun x => x.id == sid)
      = some (if canUpdateSwap auth s then { s with status := st } else s) ∧
    ((∀ x ∈ db.swaps, x.id = sid → auth ≠ x.teacher_id ∧ auth ≠ x.learner_id) →
      updateSwapStatus auth sid st db = db) :=
  ⟨updateSwap_find? db auth sid st s hf,
    fun h => updateSwap_nonparty_noop db auth sid st h⟩

/-- Counterexample to C5 as stated: cancelling an `in_progress` swap as the
teacher does not fail — the status really becomes `cancelled`. -/
theorem transition_policy_only_counterexample :
    (exDB.swaps.find? (fun x => x.id == "s1")).map Swap.status
      = some SwapStatus.in_progress ∧
    ((updateSwapStatus "t1" "s1" SwapStatus.cancelled exDB).swaps.find?
        (fun x => x.id == "s1")).map Swap.status = some SwapStatus.cancelled := by
  decide

/-- Witness for C5 (amended): the teacher cancels the `in_progress` swap; a
stranger's attempt leaves the database untouched. -/
theorem transition_policy_only_witness :
    (updateSwapStatus "t1" "s1" SwapStatus.cancelled exDB).swaps.find?
        (fun x => x.id == "s1")
      = some { exSwap with status := SwapStatus.cancelled } ∧
    updateSwapStatus "x9" "s1" SwapStatus.cancelled exDB = exDB := by
  have h1 := transition_policy_only exDB "t1" "s1" SwapStatus.cancelled exSwap (by decide)
  have h2 := transition_policy_only exDB "x9" "s1" SwapStatus.cancelled exSwap (by decide)
  exact ⟨h1.1.trans (by decide), h2.2 (by decide)⟩

/-- C6 (amended): responding to a `pending` swap is a status update to
`accepted` or `declined`; an actor who is neither the teacher nor the
learner is filtered out by the policy and no row changes (silently — the
code raises no AuthorizationError), but the learner is just as permitted as
the teacher: the policy carries no teacher-only restriction. -/
theorem respond_policy (db : DB) (auth sid : String) (d : SwapStatus) (s : Swap)
    (hf : db.swaps.find? (fun x => x.id == sid) = some s)
    (hp : s.status = SwapStatus.pending)
    (hd : d = SwapStatus.accepted ∨ d = SwapStatus.declined) :
    ((∀ x ∈ db.swaps, x.id = sid → auth ≠ x.teacher_id ∧ auth ≠ x.learner_id) →
      updateSwapStatus auth sid d db = db) ∧
    (auth = s.learner_id →
      (updateSwapStatus auth sid d db).swaps.find? (fun x => x.id == sid)
        = some { s with status := d }) := by
  constructor
  · exact fun h => updateSwap_nonparty_noop db auth sid d h
  · intro hl
    have hcan : canUpdateSwap auth s = true := by
      unfold canUpdateSwap
      simp [hl]
    rw [updateSwap_find? db auth sid d s hf, if_pos hcan]

/-- Counterexample to C6 as stated: the learner responds `accept` on a
`pending` swap and it succeeds — the status becomes `accepted` instead of the
claimed AuthorizationError with unchanged status. -/
theorem respond_policy_counterexample :
    (exDBPending.swaps.find? (fun x => x.id == "s1")).map Swap.status
      = some SwapStatus.pending ∧
    ((updateSwapStatus "l1" "s1" SwapStatus.accepted exDBPending).swaps.find?
        (fun x => x.id == "s1")).map Swap.status = some SwapStatus.accepted := by
  decide

/-- Witness for C6 (amended): a stranger's respond leaves the pending swap
untouched; the learner's respond flips it to `accepted`. -/
theorem respond_policy_witness :
    updateSwapStatus "x9" "s1" SwapStatus.accepted exDBPending = exDBPending ∧
    (updateSwapStatus "l1" "s1" SwapStatus.accepted exDBPending).swaps.find?
        (fun x => x.id == "s1")
      = some { exSwapPending with status := SwapStatus.accepted } := by
  have h1 := respond_policy exDBPending "x9" "s1" SwapStatus.accepted exSwapPending
    (by decide) (by decide) (Or.inl rfl)
  have h2 := respond_policy exDBPending "l1" "s1" SwapStatus.accepted exSwapPending
    (by decide) (by decide) (Or.inl rfl)
  exact ⟨h1.1 (by decide), h2.2 (by decide)⟩

/-- An engine-fault outcome can only come from the fault oracle: the guards
themselves never produce one. -/
theorem settle_fault_inv (uid sid : String) (fault : Option String) (db : DB) (m : String) :
    (handle_swap_completion uid sid fault db).2 = SettleResult.engineFault m →
      fault = some m := by
  unfold handle_swap_completion
  repeat' split
  all_goals intro h
  all_goals simp_all

/-- C8 (amended): every result the procedure returns is a jsonb with a
`success` flag; every failing call carries `success = false` and an `error`
string — one of the four fixed guard messages, or, for a storage-engine fault
caught by `EXCEPTION WHEN OTHERS`, the raw `SQLERRM` text passed through
verbatim.  No separate stable discriminant kind accompanies the message. -/
theorem settle_error_payload (uid sid : String) (fault : Option String) (db : DB) :
    ((handle_swap_completion uid sid fault db).2 = SettleResult.ok →
      ((handle_swap_completion uid sid fault db).2).toJson
        = { success := true, message := some "Swap completed successfully", error := none }) ∧
    ((handle_swap_completion uid sid fault db).2 ≠ SettleResult.ok →
      ((handle_swap_completion uid sid fault db).2).toJson.success = false ∧
      (((handle_swap_completion uid sid fault db).2).toJson.error = some "Swap not found" ∨
       ((handle_swap_completion uid sid fault db).2).toJson.error
         = some "Swap is not in progress" ∨
       ((handle_swap_completion uid sid fault db).2).toJson.error = some "Unauthorized" ∨
       ((handle_swap_completion uid sid fault db).2).toJson.error
         = some "Insufficient credits" ∨
       (∃ m, fault = some m ∧
         ((handle_swap_completion uid sid fault db).2).toJson.error = some m))) := by
  cases hr : (handle_swap_completion uid sid fault db).2 with
  | ok => exact ⟨fun _ => rfl, fun hne => absurd rfl hne⟩
  | notFound => exact ⟨fun h => absurd h (by simp), fun _ => ⟨rfl, Or.inl rfl⟩⟩
  | invalidState => exact ⟨fun h => absurd h (by simp), fun _ => ⟨rfl, Or.inr (Or.inl rfl)⟩⟩
  | unauthorized =>
    exact ⟨fun h => absurd h (by simp), fun _ => ⟨rfl, Or.inr (Or.inr (Or.inl rfl))⟩⟩
  | insufficientCredits =>
    exact ⟨fun h => absurd h (by simp), fun _ => ⟨rfl, Or.inr (Or.inr (Or.inr (Or.inl rfl)))⟩⟩
  | engineFault m =>
    exact ⟨fun h => absurd h (by simp),
      fun _ => ⟨rfl, Or.inr (Or.inr (Or.inr (Or.inr
        ⟨m, settle_fault_inv uid sid fault db m hr, rfl⟩)))⟩⟩

/-- Counterexample to C8 as stated: a storage-engine fault raised during the
settlement mutations is returned to the caller with the raw `SQLERRM` as the
error string — not re-classified into any defined error kind. -/
theorem settle_error_payload_counterexample :
    (handle_swap_completion "t1" "s1" (some "deadlock detected") exDB).2
      = SettleResult.engineFault "deadlock detected" ∧
    ((handle_swap_completion "t1" "s1" (some "deadlock detected") exDB).2).toJson
      = { success := false, message := none, error := some "deadlock detected" } := by
  decide

/-- Witness for C8 (amended): a concrete engine fault after all guards pass
comes back as `success = false` with the fault's own message as the error
string. -/
theorem settle_error_payload_witness :
    ((handle_swap_completion "l1" "s1" (some "unique constraint violated") exDB).2).toJson.success
      = false ∧
    ((handle_swap_completion "l1" "s1" (some "unique constraint violated") exDB).2).toJson.error
      = some "unique constraint violated" :=
  ⟨((settle_error_payload "l1" "s1" (some "unique constraint violated") exDB).2
      (by decide)).1, by decide⟩

/-! ## Provisioning lemmas -/

/-- Existence is unchanged by row maps: `any` is unchanged by a row map whose predicate it cannot distinguish. -/
theorem any_map_pred {α : Type} (p : α → Bool) (F : α → α)
    (hF : ∀ a, p (F a) = p a) (l : List α) :
    (l.map F).any p = l.any p := by
  induction l with
  | nil => rfl
  | cons a t ih => simp [List.any_cons, hF, ih]

/-- The conflict branch of the provisioning upsert. -/
theorem handle_new_user_conflict (u : NewUser) (db : DB)
    (hany : db.profiles.any (fun p => p.id == u.id) = true) :
    handle_new_user u db =
      { db with
        profiles := db.profiles.map (fun p =>
          if p.id == u.id then
            { p with
              full_name := sqlCoalesce (some (provisionedFullName u)) p.full_name,
              avatar_url := sqlCoalesce u.meta_avatar_url p.avatar_url }
          else p) } := by
  unfold handle_new_user
  rw [if_pos hany]

/-- The fresh-insert branch of the provisioning upsert. -/
theorem handle_new_user_fresh (u : NewUser) (db : DB)
    (hany : db.profiles.any (fun p => p.id == u.id) = false) :
    handle_new_user u db =
      { db with
        profiles := db.profiles ++
          [defaultProfileRow u.id u.email (some (provisionedFullName u)) u.meta_avatar_url] } := by
  unfold handle_new_user
  rw [if_neg (by simp [hany])]

/-- Provisioning writes only the `profiles` table. -/
theorem handle_new_user_tables (u : NewUser) (db : DB) :
    (handle_new_user u db).transactions = db.transactions ∧
    (handle_new_user u db).swaps = db.swaps := by
  unfold handle_new_user
  split <;> exact ⟨rfl, rfl⟩

/-- With unique profile ids, a present id is matched by exactly one row. -/
theorem countP_id_of_nodup (l : List Profile) (x : String)
    (hnd : (l.map Profile.id).Nodup)
    (hany : l.any (fun p => p.id == x) = true) :
    l.countP (fun p => p.id == x) = 1 := by
  induction l with
  | nil => simp at hany
  | cons a t ih =>
    simp only [List.map_cons, List.nodup_cons] at hnd
    by_cases h : (a.id == x) = true
    · rw [List.countP_cons_of_pos (fun p => p.id == x) t h]
      have hax : a.id = x := by simpa using h
      have h0 : t.countP (fun p => p.id == x) = 0 := by
        rw [List.countP_eq_zero]
        intro q hq hq'
        have hqx : q.id = x := by simpa using hq'
        exact hnd.1 (hax ▸ hqx ▸ List.mem_map_of_mem Profile.id hq)
      omega
    · rw [List.countP_cons_of_neg (fun p => p.id == x) t h]
      apply ih hnd.2
      simpa [List.any_cons, h] using hany

/-- The conflict-resolution row update of the provisioning upsert is
pointwise idempotent. -/
theorem provisionRow_idem (u : NewUser) (p : Profile) :
    sqlCoalesce (some (provisionedFullName u))
        (sqlCoalesce (some (provisionedFullName u)) p.full_name)
      = sqlCoalesce (some (provisionedFullName u)) p.full_name ∧
    sqlCoalesce u.meta_avatar_url (sqlCoalesce u.meta_avatar_url p.avatar_url)
      = sqlCoalesce u.meta_avatar_url p.avatar_url := by
  cases h : u.meta_avatar_url <;> simp [sqlCoalesce, h]

/-- Running the provisioning trigger twice for the same identity is the same
as running it once. -/
theorem handle_new_user_idem (u : NewUser) (db : DB) :
    handle_new_user u (handle_new_user u db) = handle_new_user u db := by
  have hFpred : ∀ p : Profile,
      ((if p.id == u.id then
          { p with
            full_name := sqlCoalesce (some (provisionedFullName u)) p.full_name,
            avatar_url := sqlCoalesce u.meta_avatar_url p.avatar_url }
        else p).id == u.id) = (p.id == u.id) := by
    intro p
    by_cases hp : (p.id == u.id) = true <;> simp [hp]
  by_cases hany : db.profiles.any (fun p => p.id == u.id) = true
  · rw [handle_new_user_conflict u db hany]
    rw [handle_new_user_conflict u _
      (by simpa using (any_map_pred _ _ hFpred db.profiles).trans hany)]
    simp only [DB.mk.injEq, and_true, true_and]
    rw [List.map_map]
    apply List.map_congr_left
    intro p _
    by_cases hp : (p.id == u.id) = true
    · simp [Function.comp, hp, (provisionRow_idem u p).1, (provisionRow_idem u p).2]
    · simp [Function.comp, hp]
  · have hany' : db.profiles.any (fun p => p.id == u.id) = false := by
      simpa using hany
    rw [handle_new_user_fresh u db hany']
    have hrow : (defaultProfileRow u.id u.email (some (provisionedFullName u))
        u.meta_avatar_url).id == u.id := by
      simp [defaultProfileRow]
    rw [handle_new_user_conflict u _
      (by simp only [List.any_append, List.any_cons, List.any_nil, hrow]; simp)]
    simp only [DB.mk.injEq, and_true, true_and]
    rw [List.map_append]
    congr 1
    · apply map_eq_self_of_mem
      intro p hp
      have : ¬ ((p.id == u.id) = true) := by
        have := List.any_eq_false.mp hany' p hp
        simpa using this
      simp [this]
    · simp only [List.map_cons, List.map_nil]
      congr 1
      rw [if_pos hrow]
      cases h : u.meta_avatar_url <;>
        simp [defaultProfileRow, sqlCoalesce, h]

/-- Any positive number of provisioning runs collapses to a single run. -/
theorem handle_new_user_iterate (u : NewUser) (db : DB) (n : ℕ) :
    (handle_new_user u)^[n + 1] db = handle_new_user u db := by
  induction n with
  | zero => rfl
  | succ k ih =>
    rw [Function.iterate_succ_apply']
    rw [ih, handle_new_user_idem]

/-- C9 (amended): provisioning is deduplicated by identity id and idempotent
— any number of runs leaves exactly one profile row for the id and never
touches the ledger or the swaps (so no duplicate signup-bonus transactions
can arise) — but on an id conflict the upsert prefers the incoming non-null
value: `full_name` is overwritten with the freshly coalesced incoming name
(which is never NULL) and `avatar_url` with the incoming value when present,
keeping the stored value only when the incoming one is NULL. -/
theorem provisioning_upsert_dedup (u : NewUser) (db : DB) (n : ℕ)
    (hnd : (db.profiles.map Profile.id).Nodup) :
    ((handle_new_user u)^[n + 1] db).profiles.countP (fun p => p.id == u.id) = 1 ∧
    ((handle_new_user u)^[n + 1] db).transactions = db.transactions ∧
    ((handle_new_user u)^[n + 1] db).swaps = db.swaps ∧
    (∀ p, db.profiles.find? (fun q => q.id == u.id) = some p →
      ((handle_new_user u)^[n + 1] db).profiles.find? (fun q => q.id == u.id)
        = some { p with
            full_name := sqlCoalesce (some (provisionedFullName u)) p.full_name,
            avatar_url := sqlCoalesce u.meta_avatar_url p.avatar_url }) := by
  rw [handle_new_user_iterate u db n]
  have hFpred : ∀ p : Profile,
      ((if p.id == u.id then
          { p with
            full_name := sqlCoalesce (some (provisionedFullName u)) p.full_name,
            avatar_url := sqlCoalesce u.meta_avatar_url p.avatar_url }
        else p).id == u.id) = (p.id == u.id) := by
    intro p
    by_cases hp : (p.id == u.id) = true <;> simp [hp]
  refine ⟨?_, (handle_new_user_tables u db).1, (handle_new_user_tables u db).2, ?_⟩
  · by_cases hany : db.profiles.any (fun p => p.id == u.id) = true
    · rw [handle_new_user_conflict u db hany]
      show (db.profiles.map (fun p =>
          if p.id == u.id then
            { p with
              full_name := sqlCoalesce (some (provisionedFullName u)) p.full_name,
              avatar_url := sqlCoalesce u.meta_avatar_url p.avatar_url }
          else p)).countP (fun p => p.id == u.id) = 1
      rw [countP_map_pred (fun p => p.id == u.id) _ hFpred db.profiles]
      exact countP_id_of_nodup db.profiles u.id hnd hany
    · have hany' : db.profiles.any (fun p => p.id == u.id) = false := by
        simpa using hany
      rw [handle_new_user_fresh u db hany']
      show (db.profiles ++
          [defaultProfileRow u.id u.email (some (provisionedFullName u))
            u.meta_avatar_url]).countP (fun p => p.id == u.id) = 1
      rw [List.countP_append]
      have h0 : db.profiles.countP (fun p => p.id == u.id) = 0 := by
        rw [List.countP_eq_zero]
        intro q hq
        have := List.any_eq_false.mp hany' q hq
        simpa using this
      simp [h0, List.countP_cons, defaultProfileRow]
  · intro p hp
    have hpid : (p.id == u.id) = true := by
      have h := List.find?_some hp
      exact h
    have hany : db.profiles.any (fun q => q.id == u.id) = true :=
      List.any_eq_true.mpr ⟨p, List.mem_of_find?_eq_some hp, hpid⟩
    rw [handle_new_user_conflict u db hany]
    show (db.profiles.map (fun p =>
          if p.id == u.id then
            { p with
              full_name := sqlCoalesce (some (provisionedFullName u)) p.full_name,
              avatar_url := sqlCoalesce u.meta_avatar_url p.avatar_url }
          else p)).find? (fun q => q.id == u.id) = _
    rw [find?_map_pred_inv (fun q => q.id == u.id) _ hFpred db.profiles, hp]
    have hpeq : p.id = u.id := by simpa using hpid
    simp [hpeq]

/-- Counterexample to C9 as stated: on an id conflict with both values
non-null, the upsert keeps the incoming name ("Bob"), not the already-present
one ("Learner") — `COALESCE(EXCLUDED.full_name, profiles.full_name)` lets the
excluded (incoming) row win. -/
theorem provisioning_upsert_dedup_counterexample :
    (exDB.profiles.find? (fun q => q.id == "l1")).map Profile.full_name
      = some (some "Learner") ∧
    ((handle_new_user exNewUser exDB).profiles.find?
        (fun q => q.id == "l1")).map Profile.full_name = some (some "Bob") := by
  decide

/-- Witness for C9 (amended): two provisioning runs against the existing
learner profile leave one row for the id, an untouched ledger, and the
incoming name "Bob" in place of "Learner". -/
theorem provisioning_upsert_dedup_witness :
    ((handle_new_user exNewUser)^[2] exDB).profiles.countP
        (fun p => p.id == "l1") = 1 ∧
    ((handle_new_user exNewUser)^[2] exDB).transactions = exDB.transactions ∧
    ((handle_new_user exNewUser)^[2] exDB).profiles.find? (fun q => q.id == "l1")
      = some { exLearner with full_name := some "Bob" } := by
  have h := provisioning_upsert_dedup exNewUser exDB 1 (by decide)
  exact ⟨h.1, h.2.1, (h.2.2.2 exLearner (by decide)).trans (by decide)⟩

/-- C10: every profile created by provisioning starts from the schema
defaults — credits 100, both counters 0, rating 0.0, zero reviews — and
neither the trigger nor the client-side signup insert ever appends a
Transaction row: no `signup_bonus` ledger entry exists for the initial
grant. -/
theorem provisioning_defaults (db : DB) (u : NewUser)
    (hfresh : ∀ p ∈ db.profiles, p.id ≠ u.id) :
    (handle_new_user u db).profiles
      = db.profiles ++
        [{ id := u.id, email := u.email,
           full_name := some (provisionedFullName u), avatar_url := u.meta_avatar_url,
           credits := 100, skills_taught := 0, skills_learned := 0,
           average_rating := 0, total_reviews := 0 }] ∧
    (∀ (db2 : DB) (v : NewUser), (handle_new_user v db2).transactions = db2.transactions) ∧
    (∀ (db2 : DB) (i e f : String),
      ((signUpProfileInsert i e f db2).1).transactions = db2.transactions) ∧
    (∀ (db2 : DB) (i e f : String), (∀ p ∈ db2.profiles, p.id ≠ i) →
      ((signUpProfileInsert i e f db2).1).profiles
        = db2.profiles ++
          [{ id := i, email := e, full_name := some f, avatar_url := none,
             credits := 100, skills_taught := 0, skills_learned := 0,
             average_rating := 0, total_reviews := 0 }]) := by
  refine ⟨?_, fun db2 v => (handle_new_user_tables v db2).1, fun db2 i e f => ?_, ?_⟩
  · have hany : db.profiles.any (fun p => p.id == u.id) = false := by
      rw [List.any_eq_false]
      intro p hp
      simp [hfresh p hp]
    rw [handle_new_user_fresh u db hany]
    rfl
  · unfold signUpProfileInsert
    split <;> rfl
  · intro db2 i e f hfresh2
    have hany : db2.profiles.any (fun p => p.id == i) = false := by
      rw [List.any_eq_false]
      intro p hp
      simp [hfresh2 p hp]
    unfold signUpProfileInsert
    rw [if_neg (by simp [hany])]
    rfl

/-- Witness for C10: provisioning a fresh identity appends exactly the
default row — 100 credits, zeroed counters and rating — and writes nothing
to the ledger. -/
theorem provisioning_defaults_witness :
    (handle_new_user exNewUser2 exDB).profiles
      = exDB.profiles ++
        [{ id := "u7", email := "nora@example.org",
           full_name := some "Nora", avatar_url := none,
           credits := 100, skills_taught := 0, skills_learned := 0,
           average_rating := 0, total_reviews := 0 }] ∧
    (handle_new_user exNewUser2 exDB).transactions = exDB.transactions := by
  have h := provisioning_defaults exDB exNewUser2 (by decide)
  exact ⟨h.1.trans (by decide), h.2.1 exDB exNewUser2⟩
